import Mathlib

/-!
Shallow embedding of the gin-contrib/zap middleware (request access logging
and panic recovery for the gin web framework, backed by the zap structured
logger), together with theorems settling the specification claims.

Source layout of the repository:
* `src/unnamed/part_001` — package ginzap with `Config` (timeFormat, utc,
  customFields), functional options, `Logger`, `Recovery`.  Embedded below in
  namespace `ZapOptions`.
* `src/zap.go` — an `OnLevel` variant of the access logger that performs a
  `logger.Check(lvl, path)` pre-check before building fields.  Embedded below
  in namespace `ZapOnLevel`.
* `GinzapWithConfig` with `Config` fields TimeFormat, UTC, SkipPaths,
  SkipPathRegexps, Skipper, DefaultLevel, LogErrorsOnce, CustomFields,
  Context is exercised by `src/zap_test.go` and `src/unnamed/part_000` and
  documented by the README, but its defining file is not present under
  `src/`; it is modelled from the spec in namespace `ZapWithConfig`.

External collaborators (gin context, zap sink, the time package,
`httputil.DumpRequest`) are modelled as explicit state and function
parameters.
-/

/-- Lower-case a string character by character (model of Go
`strings.ToLower`; the patterns matched in this code base are ASCII). -/
def strToLower (s : String) : String :=
  ⟨s.data.map Char.toLower⟩

/-- Does `pat` occur as a contiguous sublist of the second argument? -/
def listContainsSub (pat : List Char) : List Char → Bool
  | [] => pat.isEmpty
  | c :: rest => pat.isPrefixOf (c :: rest) || listContainsSub pat rest

/-- Model of Go `strings.Contains s pat`. -/
def strContains (s pat : String) : Bool :=
  listContainsSub pat.data s.data

/-- Go error values as far as the Recovery interceptor inspects them: the
dynamic type matters for the two type assertions in `Recovery`
(`err.(*net.OpError)` and `ne.Err.(*os.SyscallError)`). -/
inductive GoError : Type where
  /-- `*os.SyscallError` with syscall name and the wrapped error text. -/
  | syscallError (syscall : String) (msg : String)
  /-- any other plain error (e.g. from `errors.New`), carrying its text. -/
  | stringError (msg : String)
  /-- `*net.OpError` with operation name and wrapped `Err`. -/
  | opError (op : String) (err : GoError)
deriving DecidableEq, Repr

/-- The `Error()` text of a modelled Go error.  For `*os.SyscallError`,
Go renders `Syscall + ": " + Err.Error()`; the rendering of the outer
`*net.OpError` is approximated (it is never inspected by this code base). -/
def GoError.Error : GoError → String
  | GoError.syscallError sys msg => sys ++ ": " ++ msg
  | GoError.stringError msg => msg
  | GoError.opError op err => op ++ ": " ++ GoError.Error err

/-- A Go panic value (`interface{}` passed to `panic`), restricted to the
shapes this code base distinguishes. -/
inductive PanicVal : Type where
  /-- a plain string, e.g. `panic("boom")`. -/
  | str (s : String)
  /-- an error value. -/
  | err (e : GoError)
  /-- `panic(nil)`: `recover()` returns the nil interface. -/
  | nilVal
  /-- the run-time error raised by a failed type assertion. -/
  | assertionError
deriving DecidableEq, Repr

/-- zap log levels used by this code base. -/
inductive Level : Type where
  | debug
  | info
  | warn
  | error
deriving DecidableEq, Repr

/-- A structured field value (`zap.Int`, `zap.String`, `zap.Duration`,
`zap.ByteString`, `zap.Any`). -/
inductive FieldValue : Type where
  | int (n : Int)
  | str (s : String)
  | dur (d : Nat)
  | byteStr (s : String)
  | any (v : PanicVal)
deriving DecidableEq, Repr

/-- A named structured field (a zapcore field value with its key). -/
structure LogField : Type where
  key : String
  value : FieldValue
deriving DecidableEq, Repr

/-- One record handed to the logging sink: severity, message, fields. -/
structure LogRecord : Type where
  level : Level
  msg : String
  fields : List LogField
deriving DecidableEq, Repr

/-- The logging sink, reduced to its level-gating behaviour: `enabled lvl`
tells whether `logger.Check(lvl, msg)` returns a non-nil checked entry. -/
structure Sink : Type where
  enabled : Level → Bool

/-- Model of a `time.Time` instant: an abstract stamp plus the location
flag that `UTC()` switches. -/
structure Time : Type where
  stamp : Nat
  isUTC : Bool
deriving DecidableEq, Repr

/-- Model of `time.Time.UTC()`. -/
def Time.toUTC (t : Time) : Time :=
  { t with isUTC := true }

/-- Model of `time.Time.Format layout`: an injective rendering of the
layout, the instant and its location. -/
def Time.format (t : Time) (layout : String) : String :=
  layout ++ ";" ++ toString t.stamp ++ ";" ++ (if t.isUTC then "UTC" else "Local")

/-- The inbound `*http.Request` as far as this code base reads it. -/
structure Request : Type where
  path : String
  query : String
  method : String
  userAgent : String
deriving DecidableEq, Repr

/-- The mutable per-request gin context state observed and mutated by the
middleware: the request (downstream handlers may rewrite it), the
accumulated error texts (`c.Errors.Errors()`), the response status
(`c.Writer.Status()`), the abort flag, and the resolved client IP. -/
structure CtxState : Type where
  request : Request
  errors : List String
  status : Nat
  aborted : Bool
  clientIP : String
deriving DecidableEq, Repr

namespace ZapOptions

/-- `Config` of `src/unnamed/part_001`: time layout, UTC flag, and the
custom field functions. -/
structure Config : Type where
  timeFormat : String
  utc : Bool
  customFields : List (CtxState → LogField)

/-- Go `time.RFC3339Nano`. -/
def rfc3339Nano : String := "2006-01-02T15:04:05.999999999Z07:00"

/-- The default `Config` literal built at the top of `Logger` and
`Recovery`. -/
def defaultConfig : Config :=
  { timeFormat := rfc3339Nano, utc := false, customFields := [] }

/-- Folding the functional options over the default config
(`for _, opt := range opts { opt(&cfg) }`). -/
def applyOptions (opts : List (Config → Config)) : Config :=
  opts.foldl (fun c o => o c) defaultConfig

/-- `WithTimeFormat` option. -/
def WithTimeFormat (layout : String) : Config → Config :=
  fun c => { c with timeFormat := layout }

/-- `WithUTC` option. -/
def WithUTC (b : Bool) : Config → Config :=
  fun c => { c with utc := b }

/-- `WithCustomFields` option. -/
def WithCustomFields (fs : List (CtxState → LogField)) : Config → Config :=
  fun c => { c with customFields := fs }

/-- The handler closure returned by `Logger` (src/unnamed/part_001 lines
88-123), as a state transformer: given the entry and exit instants, the
downstream chain (`c.Next()`) as a context transformer, and the inbound
context, it returns the final context and the records handed to the
logger.  `path` and `query` are captured before `c.Next()`; status,
method, client IP and user agent are read afterwards. -/
def Logger (cfg : Config) (startT endT : Time) (downstream : CtxState → CtxState)
    (c : CtxState) : CtxState × List LogRecord :=
  let path := c.request.path
  let query := c.request.query
  let c1 := downstream c
  let latency := endT.stamp - startT.stamp
  let endA := if cfg.utc then endT.toUTC else endT
  if c1.errors.length > 0 then
    (c1, c1.errors.map (fun e => ⟨Level.error, e, []⟩))
  else
    (c1, [⟨Level.info, path,
      [⟨"status", FieldValue.int c1.status⟩,
       ⟨"method", FieldValue.str c1.request.method⟩,
       ⟨"path", FieldValue.str path⟩,
       ⟨"query", FieldValue.str query⟩,
       ⟨"ip", FieldValue.str c1.clientIP⟩,
       ⟨"user-agent", FieldValue.str c1.request.userAgent⟩,
       ⟨"time", FieldValue.str (endA.format cfg.timeFormat)⟩,
       ⟨"latency", FieldValue.dur latency⟩]
      ++ cfg.customFields.map (fun f => f c1)⟩])

/-- `Ginzap(logger, timeFormat, utc)` delegates to `Logger` with the two
corresponding options. -/
def Ginzap (timeFormat : String) (utc : Bool) (startT endT : Time)
    (downstream : CtxState → CtxState) (c : CtxState) : CtxState × List LogRecord :=
  Logger (applyOptions [WithTimeFormat timeFormat, WithUTC utc]) startT endT downstream c

/-- The broken-connection classification of `Recovery` (src/unnamed/part_001
lines 150-158): the panic value must be a `*net.OpError` whose `Err` is a
`*os.SyscallError` whose `Error()` text, lower-cased, contains
"broken pipe" or "connection reset by peer". -/
def isBrokenPipe : PanicVal → Bool
  | PanicVal.err (GoError.opError _ (GoError.syscallError sys msg)) =>
      strContains (strToLower (GoError.Error (GoError.syscallError sys msg))) "broken pipe" ||
      strContains (strToLower (GoError.Error (GoError.syscallError sys msg))) "connection reset by peer"
  | _ => false

/-- The `err.(error)` type assertion used at `c.Error(err.(error))`:
succeeds exactly when the panic value is an error, yielding its text (the
error list is modelled by the texts `c.Errors.Errors()` reports). -/
def errTextOf : PanicVal → Option String
  | PanicVal.err e => some (GoError.Error e)
  | _ => none

/-- Result of running the `Recovery` handler: final context, records
handed to the logger, and the panic (if any) escaping the handler to the
framework. -/
structure RecoveryOut : Type where
  ctx : CtxState
  logs : List LogRecord
  escape : Option PanicVal
deriving Repr

/-- The config assembly of `Recovery` (src/unnamed/part_001 lines 131-144):
options folded over the default, then, when `stack` is set, one more custom
field holding the captured stack (`zap.ByteString("stack", debug.Stack())`,
the dump text supplied here as a parameter). -/
def recoveryConfig (stack : Bool) (stackDump : String)
    (opts : List (Config → Config)) : Config :=
  let cfg := applyOptions opts
  if stack then
    { cfg with customFields :=
        cfg.customFields ++ [fun _ => ⟨"stack", FieldValue.byteStr stackDump⟩] }
  else cfg

/-- The handler closure returned by `Recovery` (src/unnamed/part_001 lines
145-190).  `downstream` returns the mutated context and, when the chain
panicked, the panic value `recover()` observes.  `dump` stands for
`httputil.DumpRequest(c.Request, false)` (request line and headers only,
no body), evaluated at panic time.  `now` is the instant `time.Now()`
yields inside the generic branch.

The deferred guard: when `recover()` returns nil (normal return, or
`panic(nil)`) nothing happens; otherwise, on the broken-pipe branch it
logs one Error record (message = request path, fields = the panic value
and the request dump), registers the panic as a request error
(`c.Error(err.(error))` — the assertion re-panics if the value is not an
error) and aborts; on the generic branch it logs one Error record with
message "[Recovery from panic]" and fields time, error, request, then the
custom fields, and calls `c.AbortWithStatus(500)`. -/
def recoveryRun (cfg : Config) (now : Time) (dump : Request → String)
    (downstream : CtxState → CtxState × Option PanicVal)
    (c : CtxState) : RecoveryOut :=
  let c1 := (downstream c).1
  match (downstream c).2 with
  | none => ⟨c1, [], none⟩
  | some e =>
    if e = PanicVal.nilVal then ⟨c1, [], none⟩
    else
      let httpRequest := dump c1.request
      if isBrokenPipe e then
        let rec1 : LogRecord :=
          ⟨Level.error, c1.request.path,
           [⟨"error", FieldValue.any e⟩,
            ⟨"request", FieldValue.byteStr httpRequest⟩]⟩
        match errTextOf e with
        | some t =>
            ⟨{ c1 with errors := c1.errors ++ [t], aborted := true }, [rec1], none⟩
        | none =>
            ⟨c1, [rec1], some PanicVal.assertionError⟩
      else
        let nowA := if cfg.utc then now.toUTC else now
        let fields :=
          [⟨"time", FieldValue.str (nowA.format cfg.timeFormat)⟩,
           ⟨"error", FieldValue.any e⟩,
           ⟨"request", FieldValue.byteStr httpRequest⟩]
          ++ cfg.customFields.map (fun f => f c1)
        ⟨{ c1 with status := 500, aborted := true },
         [⟨Level.error, "[Recovery from panic]", fields⟩], none⟩

end ZapOptions

namespace ZapOnLevel

/-- The handler closure returned by `OnLevel` (src/zap.go lines 33-63), as
a state transformer.  Only `path` is captured before `c.Next()` (this
variant captures no query, and its success record carries no query field).
On the success branch it calls `logger.Check(lvl, path)` (modelled by the
sink's `enabled` predicate) and builds the fields and writes the record
only when the checked entry is non-nil. -/
def OnLevel (lvl : Level) (timeFormat : String) (utc : Bool) (sink : Sink)
    (startT endT : Time) (downstream : CtxState → CtxState)
    (c : CtxState) : CtxState × List LogRecord :=
  let path := c.request.path
  let c1 := downstream c
  let latency := endT.stamp - startT.stamp
  let endA := if utc then endT.toUTC else endT
  if c1.errors.length > 0 then
    (c1, c1.errors.map (fun e => ⟨Level.error, e, []⟩))
  else
    if sink.enabled lvl then
      (c1, [⟨lvl, path,
        [⟨"status", FieldValue.int c1.status⟩,
         ⟨"method", FieldValue.str c1.request.method⟩,
         ⟨"path", FieldValue.str path⟩,
         ⟨"ip", FieldValue.str c1.clientIP⟩,
         ⟨"user-agent", FieldValue.str c1.request.userAgent⟩,
         ⟨"time", FieldValue.str (endA.format timeFormat)⟩,
         ⟨"latency", FieldValue.dur latency⟩]⟩])
    else (c1, [])

/-- `Ginzap(logger, timeFormat, utc)` of src/zap.go delegates to `OnLevel`
at Info level. -/
def Ginzap (timeFormat : String) (utc : Bool) (sink : Sink) (startT endT : Time)
    (downstream : CtxState → CtxState) (c : CtxState) : CtxState × List LogRecord :=
  OnLevel Level.info timeFormat utc sink startT endT downstream c

end ZapOnLevel

namespace ZapWithConfig

/-- Go `fmt.Sprintf "%02d"` on a natural index: at least two digits,
padded with a leading zero. -/
def fmt2 (n : Nat) : String :=
  if n < 10 then "0" ++ toString n else "" ++ toString n

/-- Modelled from the spec: the `Config` consumed by `GinzapWithConfig`
(TimeFormat, UTC, SkipPaths, SkipPathRegexps, Skipper, DefaultLevel,
LogErrorsOnce, custom field functions, optional Context function).  The
file defining it is not under src/; only src/zap_test.go,
src/unnamed/part_000 and the README reference it.  A path matcher from
SkipPathRegexps is modelled as a predicate on the path string. -/
structure Config : Type where
  timeFormat : String
  utc : Bool
  skipPaths : List String
  skipPathRegexps : List (String → Bool)
  skipper : Option (CtxState → Bool)
  defaultLevel : Level
  logErrorsOnce : Bool
  customFields : List (CtxState → LogField)
  contextFn : Option (CtxState → List LogField)

/-- Modelled from the spec: the skip decision — skipper set and true for
this context, OR the captured path exactly matching an entry of SkipPaths,
OR the captured path matching any pattern of SkipPathRegexps; evaluated
once, before downstream invocation, on the pre-capture path. -/
def skipCheck (cfg : Config) (c : CtxState) : Bool :=
  (match cfg.skipper with
   | some f => f c
   | none => false)
  || decide (c.request.path ∈ cfg.skipPaths)
  || cfg.skipPathRegexps.any (fun re => re c.request.path)

/-- One aggregated line, "Error #<2-digit-index>: <error text>\n". -/
def errLine (i : Nat) (e : String) : String :=
  "Error #" ++ fmt2 i ++ ": " ++ e ++ "\n"

/-- Modelled from the spec: one aggregated error line per accumulated
error, numbered from the given starting index. -/
def errorsOnceMsgAux : Nat → List String → String
  | _, [] => ""
  | i, e :: rest => errLine i e ++ errorsOnceMsgAux (i + 1) rest

/-- Modelled from the spec: the single aggregated message emitted when
LogErrorsOnce is set — the concatenation of
"Error #<2-digit-index>: <error text>\n" over the accumulated errors in
order, indices starting at 01. -/
def errorsOnceMsg (es : List String) : String :=
  errorsOnceMsgAux 1 es

/-- The spec sentence for the aggregated message, phrased independently:
the concatenation, over the zero-based position-annotated error list, of
the line for index position+1 (so indices start at 01).  To be compared
with `errorsOnceMsg`. -/
def specErrorsOnceMsg (es : List String) : String :=
  (es.enum).foldr (fun p acc => errLine (p.1 + 1) p.2 ++ acc) ""

/-- Modelled from the spec: the handler returned by `GinzapWithConfig`
(the defining file is not under src/).  Before invoking downstream it
captures path and query and evaluates the skip decision; it always invokes
downstream; a skipped request emits no record.  On errors it emits one
Error record per error text (no fields), or, when LogErrorsOnce is set,
one Error record carrying the aggregated message and no fields.
Otherwise, after the would-this-level-be-emitted pre-check, it emits one
record at DefaultLevel, message = captured path, fields in the fixed
order status, method, path, query, ip, user-agent, time, latency,
followed by the custom field outputs in declaration order, followed by
the Context function outputs if set. -/
def GinzapWithConfig (cfg : Config) (sink : Sink) (startT endT : Time)
    (downstream : CtxState → CtxState) (c : CtxState) : CtxState × List LogRecord :=
  let path := c.request.path
  let query := c.request.query
  let skip := skipCheck cfg c
  let c1 := downstream c
  let latency := endT.stamp - startT.stamp
  let endA := if cfg.utc then endT.toUTC else endT
  if skip then
    (c1, [])
  else if c1.errors.length > 0 then
    if cfg.logErrorsOnce then
      (c1, [⟨Level.error, errorsOnceMsg c1.errors, []⟩])
    else
      (c1, c1.errors.map (fun e => ⟨Level.error, e, []⟩))
  else
    if sink.enabled cfg.defaultLevel then
      (c1, [⟨cfg.defaultLevel, path,
        [⟨"status", FieldValue.int c1.status⟩,
         ⟨"method", FieldValue.str c1.request.method⟩,
         ⟨"path", FieldValue.str path⟩,
         ⟨"query", FieldValue.str query⟩,
         ⟨"ip", FieldValue.str c1.clientIP⟩,
         ⟨"user-agent", FieldValue.str c1.request.userAgent⟩,
         ⟨"time", FieldValue.str (endA.format cfg.timeFormat)⟩,
         ⟨"latency", FieldValue.dur latency⟩]
        ++ cfg.customFields.map (fun f => f c1)
        ++ (match cfg.contextFn with
            | some f => f c1
            | none => [])⟩])
    else (c1, [])

end ZapWithConfig

/-- C1: for every request whose downstream chain panics with a value that
is not nil and not classified as a broken connection, the Recovery
interceptor emits exactly one Error-level record with message
"[Recovery from panic]" whose fields are the formatted timestamp, the
panic value as "error", the header-only request dump, then the configured
custom fields; it sets the response status to 500 and aborts, and no
panic escapes. -/
theorem recovery_generic_panic_logs_500
    (cfg : ZapOptions.Config) (now : Time) (dump : Request → String)
    (downstream : CtxState → CtxState × Option PanicVal) (c c1 : CtxState) (pv : PanicVal)
    (hds : downstream c = (c1, some pv))
    (hnil : pv ≠ PanicVal.nilVal)
    (hbp : ZapOptions.isBrokenPipe pv = false) :
    ZapOptions.recoveryRun cfg now dump downstream c =
      ⟨{ c1 with status := 500, aborted := true },
       [⟨Level.error, "[Recovery from panic]",
         [⟨"time", FieldValue.str (Time.format (if cfg.utc then now.toUTC else now) cfg.timeFormat)⟩,
          ⟨"error", FieldValue.any pv⟩,
          ⟨"request", FieldValue.byteStr (dump c1.request)⟩]
         ++ cfg.customFields.map (fun f => f c1)⟩],
       none⟩ := by
  simp [ZapOptions.recoveryRun, hds, hnil, hbp]

/-- C1 witness: a concrete request panicking with the plain string "boom"
yields the 500 response, the abort, and the single generic Error record. -/
theorem recovery_generic_panic_logs_500_witness :
    ZapOptions.recoveryRun ⟨"layout", false, []⟩ ⟨7, false⟩ (fun r => r.method ++ " " ++ r.path)
      (fun c => ({ c with status := 200 }, some (PanicVal.str "boom")))
      ⟨⟨"/panic", "", "GET", "ua"⟩, [], 0, false, "1.2.3.4"⟩ =
      ⟨{ (⟨⟨"/panic", "", "GET", "ua"⟩, [], 200, false, "1.2.3.4"⟩ : CtxState) with
         status := 500, aborted := true },
       [⟨Level.error, "[Recovery from panic]",
         [⟨"time", FieldValue.str (Time.format (if (false : Bool) then Time.toUTC ⟨7, false⟩ else ⟨7, false⟩) "layout")⟩,
          ⟨"error", FieldValue.any (PanicVal.str "boom")⟩,
          ⟨"request", FieldValue.byteStr "GET /panic"⟩]
         ++ ([] : List (CtxState → LogField)).map
              (fun f => f (⟨⟨"/panic", "", "GET", "ua"⟩, [], 200, false, "1.2.3.4"⟩ : CtxState))⟩],
       none⟩ :=
  recovery_generic_panic_logs_500 ⟨"layout", false, []⟩ ⟨7, false⟩
    (fun r => r.method ++ " " ++ r.path)
    (fun c => ({ c with status := 200 }, some (PanicVal.str "boom")))
    ⟨⟨"/panic", "", "GET", "ua"⟩, [], 0, false, "1.2.3.4"⟩
    ⟨⟨"/panic", "", "GET", "ua"⟩, [], 200, false, "1.2.3.4"⟩
    (PanicVal.str "boom") rfl (by decide) rfl

/-- C2: the Recovery interceptor never re-raises a panic it has caught:
for every configuration, downstream behaviour and inbound context, no
panic value escapes the wrapped handler, on the broken-connection branch
as well as on the generic branch. -/
theorem recovery_never_reraises
    (cfg : ZapOptions.Config) (now : Time) (dump : Request → String)
    (downstream : CtxState → CtxState × Option PanicVal) (c : CtxState) :
    (ZapOptions.recoveryRun cfg now dump downstream c).escape = none := by
  rcases hds : downstream c with ⟨c1, pv⟩
  cases pv with
  | none => simp [ZapOptions.recoveryRun, hds]
  | some e =>
    cases e with
    | nilVal => simp [ZapOptions.recoveryRun, hds]
    | str s =>
        simp [ZapOptions.recoveryRun, hds, ZapOptions.isBrokenPipe]
    | assertionError =>
        simp [ZapOptions.recoveryRun, hds, ZapOptions.isBrokenPipe]
    | err ge =>
        simp only [ZapOptions.recoveryRun, hds]
        split
        · rfl
        · split
          · simp [ZapOptions.errTextOf]
          · rfl

/-- C7: for every panic classified as a broken connection, the Recovery
interceptor emits exactly one Error record (message = request path,
fields = the panic value as "error" and the request dump), registers the
panic text as a request error, aborts, and leaves the response status
unchanged; no panic escapes. -/
theorem recovery_broken_pipe_branch
    (cfg : ZapOptions.Config) (now : Time) (dump : Request → String)
    (downstream : CtxState → CtxState × Option PanicVal) (c c1 : CtxState) (ge : GoError)
    (hds : downstream c = (c1, some (PanicVal.err ge)))
    (hbp : ZapOptions.isBrokenPipe (PanicVal.err ge) = true) :
    ZapOptions.recoveryRun cfg now dump downstream c =
      ⟨{ c1 with errors := c1.errors ++ [GoError.Error ge], aborted := true },
       [⟨Level.error, c1.request.path,
         [⟨"error", FieldValue.any (PanicVal.err ge)⟩,
          ⟨"request", FieldValue.byteStr (dump c1.request)⟩]⟩],
       none⟩ := by
  simp [ZapOptions.recoveryRun, hds, hbp, ZapOptions.errTextOf]

/-- C7 witness: a concrete broken-pipe panic (a net.OpError wrapping an
os.SyscallError whose text contains "broken pipe") yields the single
Error record, the registered error, the abort, and an unchanged status. -/
theorem recovery_broken_pipe_branch_witness :
    ZapOptions.recoveryRun ⟨"layout", true, []⟩ ⟨3, false⟩ (fun r => r.path)
      (fun c => (c, some (PanicVal.err (GoError.opError "write" (GoError.syscallError "write" "Broken Pipe")))))
      ⟨⟨"/bp", "q=1", "GET", "ua"⟩, [], 0, false, "ip"⟩ =
      ⟨{ (⟨⟨"/bp", "q=1", "GET", "ua"⟩, [], 0, false, "ip"⟩ : CtxState) with
         errors := [] ++ [GoError.Error (GoError.opError "write" (GoError.syscallError "write" "Broken Pipe"))],
         aborted := true },
       [⟨Level.error, "/bp",
         [⟨"error", FieldValue.any (PanicVal.err (GoError.opError "write" (GoError.syscallError "write" "Broken Pipe")))⟩,
          ⟨"request", FieldValue.byteStr "/bp"⟩]⟩],
       none⟩ :=
  recovery_broken_pipe_branch ⟨"layout", true, []⟩ ⟨3, false⟩ (fun r => r.path)
    (fun c => (c, some (PanicVal.err (GoError.opError "write" (GoError.syscallError "write" "Broken Pipe")))))
    ⟨⟨"/bp", "q=1", "GET", "ua"⟩, [], 0, false, "ip"⟩
    ⟨⟨"/bp", "q=1", "GET", "ua"⟩, [], 0, false, "ip"⟩
    (GoError.opError "write" (GoError.syscallError "write" "Broken Pipe"))
    rfl (by decide)

/-- C10: the Recovery interceptor classifies a panic as a broken
connection exactly when the panic value is a net.OpError whose inner
error is an os.SyscallError whose Error text, case-insensitively,
contains "broken pipe" or "connection reset by peer"; a plain string
panic, a plain error, or an OpError without the SyscallError nesting is
never classified, even when its text contains "broken pipe", and every
unclassified non-nil panic takes the generic branch and produces a 500
response. -/
theorem recovery_broken_pipe_classification :
    (∀ op sys msg,
      ZapOptions.isBrokenPipe (PanicVal.err (GoError.opError op (GoError.syscallError sys msg))) =
        (strContains (strToLower (GoError.Error (GoError.syscallError sys msg))) "broken pipe" ||
         strContains (strToLower (GoError.Error (GoError.syscallError sys msg))) "connection reset by peer"))
    ∧ (∀ s, ZapOptions.isBrokenPipe (PanicVal.str s) = false)
    ∧ (∀ m, ZapOptions.isBrokenPipe (PanicVal.err (GoError.stringError m)) = false)
    ∧ (∀ op m, ZapOptions.isBrokenPipe (PanicVal.err (GoError.opError op (GoError.stringError m))) = false)
    ∧ ZapOptions.isBrokenPipe (PanicVal.str "broken pipe") = false
    ∧ ZapOptions.isBrokenPipe (PanicVal.err (GoError.stringError "write: broken pipe")) = false
    ∧ ZapOptions.isBrokenPipe
        (PanicVal.err (GoError.opError "write" (GoError.syscallError "write" "BROKEN PIPE"))) = true
    ∧ ZapOptions.isBrokenPipe
        (PanicVal.err (GoError.opError "read" (GoError.syscallError "read" "connection reset by peer"))) = true
    ∧ (∀ cfg now dump downstream c c1 pv, downstream c = (c1, some pv) →
        ZapOptions.isBrokenPipe pv = false → pv ≠ PanicVal.nilVal →
        (ZapOptions.recoveryRun cfg now dump downstream c).ctx.status = 500) := by
  refine ⟨fun op sys msg => rfl, fun s => rfl, fun m => rfl, fun op m => rfl,
    by decide, by decide, by decide, by decide, ?_⟩
  intro cfg now dump downstream c c1 pv hds hbp hnil
  simp [ZapOptions.recoveryRun, hds, hbp, hnil]

/-- C10 witness: instantiating the generic-branch consequence at a
concrete panic value whose text contains "broken pipe" but which is a
plain error (so not classified): the response status becomes 500. -/
theorem recovery_broken_pipe_classification_witness :
    (ZapOptions.recoveryRun ⟨"layout", false, []⟩ ⟨0, false⟩ (fun r => r.path)
      (fun c => (c, some (PanicVal.err (GoError.stringError "write: broken pipe"))))
      ⟨⟨"/x", "", "GET", "ua"⟩, [], 0, false, "ip"⟩).ctx.status = 500 :=
  recovery_broken_pipe_classification.2.2.2.2.2.2.2.2
    ⟨"layout", false, []⟩ ⟨0, false⟩ (fun r => r.path)
    (fun c => (c, some (PanicVal.err (GoError.stringError "write: broken pipe"))))
    ⟨⟨"/x", "", "GET", "ua"⟩, [], 0, false, "ip"⟩
    ⟨⟨"/x", "", "GET", "ua"⟩, [], 0, false, "ip"⟩
    (PanicVal.err (GoError.stringError "write: broken pipe"))
    rfl (by decide) (by decide)

namespace ZapWithConfig

/-- Helper: the indexed recursion agrees with the spec-phrased fold for
every starting index. -/
theorem errorsOnceMsgAux_eq_foldr (es : List String) :
    ∀ k, errorsOnceMsgAux (k + 1) es =
      (es.enumFrom k).foldr (fun p acc => errLine (p.1 + 1) p.2 ++ acc) "" := by
  induction es with
  | nil => intro k; rfl
  | cons e rest ih =>
      intro k
      simp only [errorsOnceMsgAux, List.enumFrom, List.foldr]
      rw [ih (k + 1)]

/-- Helper: the aggregated message equals its spec phrasing. -/
theorem errorsOnceMsg_eq_spec (es : List String) :
    errorsOnceMsg es = specErrorsOnceMsg es := by
  have h := errorsOnceMsgAux_eq_foldr es 0
  simpa [errorsOnceMsg, specErrorsOnceMsg, List.enum] using h

end ZapWithConfig

/-- C8: the `Logger` middleware of src/unnamed/part_001 captures path and
query before invoking downstream; on the success branch the record's
message and its path and query fields equal those pre-captured values,
for every downstream behaviour — in particular when downstream rewrites
the request's path or query — while status, method, client IP and user
agent are read from the post-downstream context. -/
theorem logger_precaptured_path_query
    (cfg : ZapOptions.Config) (startT endT : Time)
    (downstream : CtxState → CtxState) (c : CtxState)
    (herr : (downstream c).errors = []) :
    ZapOptions.Logger cfg startT endT downstream c =
      (downstream c,
       [⟨Level.info, c.request.path,
         [⟨"status", FieldValue.int (downstream c).status⟩,
          ⟨"method", FieldValue.str (downstream c).request.method⟩,
          ⟨"path", FieldValue.str c.request.path⟩,
          ⟨"query", FieldValue.str c.request.query⟩,
          ⟨"ip", FieldValue.str (downstream c).clientIP⟩,
          ⟨"user-agent", FieldValue.str (downstream c).request.userAgent⟩,
          ⟨"time", FieldValue.str (Time.format (if cfg.utc then endT.toUTC else endT) cfg.timeFormat)⟩,
          ⟨"latency", FieldValue.dur (endT.stamp - startT.stamp)⟩]
         ++ cfg.customFields.map (fun f => f (downstream c))⟩]) := by
  simp [ZapOptions.Logger, herr]

/-- C8 witness: a downstream handler that rewrites path and query; the
emitted record still carries the original inbound "/orig" and "a=1". -/
theorem logger_precaptured_path_query_witness :
    ZapOptions.Logger ⟨"layout", false, []⟩ ⟨1, false⟩ ⟨5, false⟩
      (fun (c : CtxState) => { c with request := { c.request with path := "/rewritten", query := "b=2" } })
      ⟨⟨"/orig", "a=1", "GET", "ua"⟩, [], 200, false, "ip"⟩ =
      ((fun (c : CtxState) => { c with request := { c.request with path := "/rewritten", query := "b=2" } })
         (⟨⟨"/orig", "a=1", "GET", "ua"⟩, [], 200, false, "ip"⟩ : CtxState),
       [⟨Level.info, "/orig",
         [⟨"status", FieldValue.int 200⟩,
          ⟨"method", FieldValue.str "GET"⟩,
          ⟨"path", FieldValue.str "/orig"⟩,
          ⟨"query", FieldValue.str "a=1"⟩,
          ⟨"ip", FieldValue.str "ip"⟩,
          ⟨"user-agent", FieldValue.str "ua"⟩,
          ⟨"time", FieldValue.str (Time.format (if (false : Bool) then Time.toUTC ⟨5, false⟩ else ⟨5, false⟩) "layout")⟩,
          ⟨"latency", FieldValue.dur (5 - 1)⟩]
         ++ ([] : List (CtxState → LogField)).map
              (fun f => f ((fun (c : CtxState) => { c with request := { c.request with path := "/rewritten", query := "b=2" } })
                 (⟨⟨"/orig", "a=1", "GET", "ua"⟩, [], 200, false, "ip"⟩ : CtxState)))⟩]) :=
  logger_precaptured_path_query ⟨"layout", false, []⟩ ⟨1, false⟩ ⟨5, false⟩
    (fun (c : CtxState) => { c with request := { c.request with path := "/rewritten", query := "b=2" } })
    ⟨⟨"/orig", "a=1", "GET", "ua"⟩, [], 200, false, "ip"⟩ rfl

/-- C9: the `OnLevel` middleware of src/zap.go gates its success branch on
`logger.Check(lvl, path)`: when the sink discards the level no record is
written (the fields are only built inside the branch guarded by the
check), and when the sink accepts it exactly one record at that level is
written with the fixed fields. -/
theorem onlevel_precheck_gates_record
    (lvl : Level) (timeFormat : String) (utc : Bool) (sink : Sink)
    (startT endT : Time) (downstream : CtxState → CtxState) (c : CtxState)
    (herr : (downstream c).errors = []) :
    (sink.enabled lvl = false →
      ZapOnLevel.OnLevel lvl timeFormat utc sink startT endT downstream c = (downstream c, []))
    ∧ (sink.enabled lvl = true →
      ZapOnLevel.OnLevel lvl timeFormat utc sink startT endT downstream c =
        (downstream c,
         [⟨lvl, c.request.path,
           [⟨"status", FieldValue.int (downstream c).status⟩,
            ⟨"method", FieldValue.str (downstream c).request.method⟩,
            ⟨"path", FieldValue.str c.request.path⟩,
            ⟨"ip", FieldValue.str (downstream c).clientIP⟩,
            ⟨"user-agent", FieldValue.str (downstream c).request.userAgent⟩,
            ⟨"time", FieldValue.str (Time.format (if utc then endT.toUTC else endT) timeFormat)⟩,
            ⟨"latency", FieldValue.dur (endT.stamp - startT.stamp)⟩]⟩])) := by
  constructor <;> intro h <;> simp [ZapOnLevel.OnLevel, herr, h]

/-- C9 witness: a sink that discards every level: the success branch of a
concrete error-free request writes nothing. -/
theorem onlevel_precheck_gates_record_witness :
    ZapOnLevel.OnLevel Level.debug "layout" true ⟨fun _ => false⟩ ⟨0, false⟩ ⟨9, false⟩
      (fun (c : CtxState) => { c with status := 204 })
      ⟨⟨"/t", "", "GET", "ua"⟩, [], 0, false, "ip"⟩ =
      ((fun (c : CtxState) => { c with status := 204 })
         (⟨⟨"/t", "", "GET", "ua"⟩, [], 0, false, "ip"⟩ : CtxState), []) :=
  (onlevel_precheck_gates_record Level.debug "layout" true ⟨fun _ => false⟩ ⟨0, false⟩ ⟨9, false⟩
    (fun (c : CtxState) => { c with status := 204 })
    ⟨⟨"/t", "", "GET", "ua"⟩, [], 0, false, "ip"⟩ rfl).1 rfl

/-- C3: for every request for which the skipper returns true, or whose
pre-captured path is an entry of SkipPaths, or matches some pattern of
SkipPathRegexps, the access logger still invokes downstream (the final
context is exactly the downstream result) but emits zero records; the
decision is taken on the pre-capture path of the inbound context. -/
theorem ginzap_config_skip_no_records
    (cfg : ZapWithConfig.Config) (sink : Sink) (startT endT : Time)
    (downstream : CtxState → CtxState) (c : CtxState)
    (hskip : (∃ f, cfg.skipper = some f ∧ f c = true)
      ∨ c.request.path ∈ cfg.skipPaths
      ∨ ∃ re ∈ cfg.skipPathRegexps, re c.request.path = true) :
    ZapWithConfig.GinzapWithConfig cfg sink startT endT downstream c = (downstream c, []) := by
  have h : ZapWithConfig.skipCheck cfg c = true := by
    rcases hskip with ⟨f, hf, hfc⟩ | hmem | ⟨re, hre, hrec⟩
    · simp [ZapWithConfig.skipCheck, hf, hfc]
    · simp [ZapWithConfig.skipCheck, hmem]
    · have hany : cfg.skipPathRegexps.any (fun re => re c.request.path) = true :=
        List.any_eq_true.mpr ⟨re, hre, hrec⟩
      simp [ZapWithConfig.skipCheck, hany]
  simp [ZapWithConfig.GinzapWithConfig, h]

/-- C3 witness: a request to "/no_log" with SkipPaths = ["/no_log"]: the
downstream handler still runs (it sets status 204) and no record is
emitted. -/
theorem ginzap_config_skip_no_records_witness :
    ZapWithConfig.GinzapWithConfig
      ⟨"layout", true, ["/no_log"], [], none, Level.info, false, [], none⟩
      ⟨fun _ => true⟩ ⟨0, false⟩ ⟨2, false⟩
      (fun (c : CtxState) => { c with status := 204 })
      ⟨⟨"/no_log", "", "GET", "ua"⟩, [], 0, false, "ip"⟩ =
      ((fun (c : CtxState) => { c with status := 204 })
         (⟨⟨"/no_log", "", "GET", "ua"⟩, [], 0, false, "ip"⟩ : CtxState), []) :=
  ginzap_config_skip_no_records
    ⟨"layout", true, ["/no_log"], [], none, Level.info, false, [], none⟩
    ⟨fun _ => true⟩ ⟨0, false⟩ ⟨2, false⟩
    (fun (c : CtxState) => { c with status := 204 })
    ⟨⟨"/no_log", "", "GET", "ua"⟩, [], 0, false, "ip"⟩
    (Or.inr (Or.inl (by decide)))

/-- C4: for every non-skipped request with an empty accumulated error
list whose configured level the sink accepts, the access logger emits
exactly one record at DefaultLevel, message = captured path, with fields
in the fixed order status, method, path, query, ip, user-agent, time,
latency, followed by each custom field output in declaration order,
followed by the Context function outputs if set. -/
theorem ginzap_config_success_field_order
    (cfg : ZapWithConfig.Config) (sink : Sink) (startT endT : Time)
    (downstream : CtxState → CtxState) (c : CtxState)
    (hskip : ZapWithConfig.skipCheck cfg c = false)
    (herr : (downstream c).errors = [])
    (hen : sink.enabled cfg.defaultLevel = true) :
    ZapWithConfig.GinzapWithConfig cfg sink startT endT downstream c =
      (downstream c,
       [⟨cfg.defaultLevel, c.request.path,
         [⟨"status", FieldValue.int (downstream c).status⟩,
          ⟨"method", FieldValue.str (downstream c).request.method⟩,
          ⟨"path", FieldValue.str c.request.path⟩,
          ⟨"query", FieldValue.str c.request.query⟩,
          ⟨"ip", FieldValue.str (downstream c).clientIP⟩,
          ⟨"user-agent", FieldValue.str (downstream c).request.userAgent⟩,
          ⟨"time", FieldValue.str (Time.format (if cfg.utc then endT.toUTC else endT) cfg.timeFormat)⟩,
          ⟨"latency", FieldValue.dur (endT.stamp - startT.stamp)⟩]
         ++ cfg.customFields.map (fun f => f (downstream c))
         ++ (match cfg.contextFn with
             | some f => f (downstream c)
             | none => [])⟩]) := by
  simp [ZapWithConfig.GinzapWithConfig, hskip, herr, hen]

/-- C4 witness: a concrete configuration with one custom field and a
Context function; the emitted record carries the eight fixed fields, then
the custom field, then the context fields. -/
theorem ginzap_config_success_field_order_witness :
    ZapWithConfig.GinzapWithConfig
      ⟨"layout", false, [], [], none, Level.warn, false,
       [fun c => ⟨"st2", FieldValue.int (Int.ofNat c.status)⟩],
       some (fun c => [⟨"rid", FieldValue.str c.clientIP⟩])⟩
      ⟨fun _ => true⟩ ⟨1, false⟩ ⟨4, false⟩
      (fun (c : CtxState) => { c with status := 204 })
      ⟨⟨"/test", "q=7", "GET", "ua"⟩, [], 0, false, "ip"⟩ =
      ((fun (c : CtxState) => { c with status := 204 })
         (⟨⟨"/test", "q=7", "GET", "ua"⟩, [], 0, false, "ip"⟩ : CtxState),
       [⟨Level.warn, "/test",
         [⟨"status", FieldValue.int ((fun (c : CtxState) => { c with status := 204 })
             (⟨⟨"/test", "q=7", "GET", "ua"⟩, [], 0, false, "ip"⟩ : CtxState)).status⟩,
          ⟨"method", FieldValue.str ((fun (c : CtxState) => { c with status := 204 })
             (⟨⟨"/test", "q=7", "GET", "ua"⟩, [], 0, false, "ip"⟩ : CtxState)).request.method⟩,
          ⟨"path", FieldValue.str "/test"⟩,
          ⟨"query", FieldValue.str "q=7"⟩,
          ⟨"ip", FieldValue.str ((fun (c : CtxState) => { c with status := 204 })
             (⟨⟨"/test", "q=7", "GET", "ua"⟩, [], 0, false, "ip"⟩ : CtxState)).clientIP⟩,
          ⟨"user-agent", FieldValue.str ((fun (c : CtxState) => { c with status := 204 })
             (⟨⟨"/test", "q=7", "GET", "ua"⟩, [], 0, false, "ip"⟩ : CtxState)).request.userAgent⟩,
          ⟨"time", FieldValue.str (Time.format (if (false : Bool) then Time.toUTC ⟨4, false⟩ else ⟨4, false⟩) "layout")⟩,
          ⟨"latency", FieldValue.dur (4 - 1)⟩]
         ++ ([fun c => ⟨"st2", FieldValue.int (Int.ofNat c.status)⟩] : List (CtxState → LogField)).map
              (fun f => f ((fun (c : CtxState) => { c with status := 204 })
                 (⟨⟨"/test", "q=7", "GET", "ua"⟩, [], 0, false, "ip"⟩ : CtxState)))
         ++ (match (some (fun c => [⟨"rid", FieldValue.str c.clientIP⟩]) :
                     Option (CtxState → List LogField)) with
             | some f => f ((fun (c : CtxState) => { c with status := 204 })
                 (⟨⟨"/test", "q=7", "GET", "ua"⟩, [], 0, false, "ip"⟩ : CtxState))
             | none => [])⟩]) :=
  ginzap_config_success_field_order
    ⟨"layout", false, [], [], none, Level.warn, false,
     [fun c => ⟨"st2", FieldValue.int (Int.ofNat c.status)⟩],
     some (fun c => [⟨"rid", FieldValue.str c.clientIP⟩])⟩
    ⟨fun _ => true⟩ ⟨1, false⟩ ⟨4, false⟩
    (fun (c : CtxState) => { c with status := 204 })
    ⟨⟨"/test", "q=7", "GET", "ua"⟩, [], 0, false, "ip"⟩
    rfl rfl rfl

/-- C5: for every non-skipped request accumulating at least one error
with LogErrorsOnce set, the access logger emits exactly one Error-level
record with no fields whose message is the concatenation of
"Error #<2-digit-index>: <error text>\n" over the errors in accumulation
order, indices from 01; on the two errors "error1", "error2" that message
is "Error #01: error1\nError #02: error2\n". -/
theorem ginzap_config_log_errors_once
    (cfg : ZapWithConfig.Config) (sink : Sink) (startT endT : Time)
    (downstream : CtxState → CtxState) (c : CtxState)
    (hskip : ZapWithConfig.skipCheck cfg c = false)
    (honce : cfg.logErrorsOnce = true)
    (herr : (downstream c).errors ≠ []) :
    ZapWithConfig.GinzapWithConfig cfg sink startT endT downstream c =
      (downstream c,
       [⟨Level.error, ZapWithConfig.specErrorsOnceMsg (downstream c).errors, []⟩])
    ∧ ZapWithConfig.specErrorsOnceMsg ["error1", "error2"] =
        "Error #01: error1\nError #02: error2\n" := by
  have hl : 0 < (downstream c).errors.length := List.length_pos.mpr herr
  refine ⟨?_, by decide⟩
  simp [ZapWithConfig.GinzapWithConfig, hskip, honce, hl,
    ZapWithConfig.errorsOnceMsg_eq_spec]

/-- C5 witness: a request accumulating "error1" and "error2" with
LogErrorsOnce: one Error record with the aggregated two-line message. -/
theorem ginzap_config_log_errors_once_witness :
    ZapWithConfig.GinzapWithConfig
      ⟨"layout", false, [], [], none, Level.info, true, [], none⟩
      ⟨fun _ => true⟩ ⟨0, false⟩ ⟨1, false⟩
      (fun (c : CtxState) => { c with errors := ["error1", "error2"], status := 500 })
      ⟨⟨"/error", "", "GET", "ua"⟩, [], 0, false, "ip"⟩ =
      ((fun (c : CtxState) => { c with errors := ["error1", "error2"], status := 500 })
         (⟨⟨"/error", "", "GET", "ua"⟩, [], 0, false, "ip"⟩ : CtxState),
       [⟨Level.error,
         ZapWithConfig.specErrorsOnceMsg
           ((fun (c : CtxState) => { c with errors := ["error1", "error2"], status := 500 })
             (⟨⟨"/error", "", "GET", "ua"⟩, [], 0, false, "ip"⟩ : CtxState)).errors, []⟩]) :=
  (ginzap_config_log_errors_once
    ⟨"layout", false, [], [], none, Level.info, true, [], none⟩
    ⟨fun _ => true⟩ ⟨0, false⟩ ⟨1, false⟩
    (fun (c : CtxState) => { c with errors := ["error1", "error2"], status := 500 })
    ⟨⟨"/error", "", "GET", "ua"⟩, [], 0, false, "ip"⟩
    rfl rfl (by decide)).1

/-- C6: for every non-skipped request accumulating at least one error
with LogErrorsOnce unset (the default), the access logger emits one
Error-level record per accumulated error, in accumulation order, each
message being exactly that error's text, with no fields; no
success-branch record is emitted. -/
theorem ginzap_config_per_error_records
    (cfg : ZapWithConfig.Config) (sink : Sink) (startT endT : Time)
    (downstream : CtxState → CtxState) (c : CtxState)
    (hskip : ZapWithConfig.skipCheck cfg c = false)
    (honce : cfg.logErrorsOnce = false)
    (herr : (downstream c).errors ≠ []) :
    ZapWithConfig.GinzapWithConfig cfg sink startT endT downstream c =
      (downstream c,
       (downstream c).errors.map (fun e => ⟨Level.error, e, []⟩)) := by
  have hl : 0 < (downstream c).errors.length := List.length_pos.mpr herr
  simp [ZapWithConfig.GinzapWithConfig, hskip, honce, hl]

/-- C6 witness: the same two errors without LogErrorsOnce: exactly two
Error records, one per error text, in order. -/
theorem ginzap_config_per_error_records_witness :
    ZapWithConfig.GinzapWithConfig
      ⟨"layout", false, [], [], none, Level.info, false, [], none⟩
      ⟨fun _ => true⟩ ⟨0, false⟩ ⟨1, false⟩
      (fun (c : CtxState) => { c with errors := ["error1", "error2"] })
      ⟨⟨"/error", "", "GET", "ua"⟩, [], 0, false, "ip"⟩ =
      ((fun (c : CtxState) => { c with errors := ["error1", "error2"] })
         (⟨⟨"/error", "", "GET", "ua"⟩, [], 0, false, "ip"⟩ : CtxState),
       ((fun (c : CtxState) => { c with errors := ["error1", "error2"] })
         (⟨⟨"/error", "", "GET", "ua"⟩, [], 0, false, "ip"⟩ : CtxState)).errors.map
           (fun e => ⟨Level.error, e, []⟩)) :=
  ginzap_config_per_error_records
    ⟨"layout", false, [], [], none, Level.info, false, [], none⟩
    ⟨fun _ => true⟩ ⟨0, false⟩ ⟨1, false⟩
    (fun (c : CtxState) => { c with errors := ["error1", "error2"] })
    ⟨⟨"/error", "", "GET", "ua"⟩, [], 0, false, "ip"⟩
    rfl rfl (by decide)

/-- C1 counterexample: the guard checks `recover() != nil`, and for a
downstream `panic(nil)` (legal in Go, and nil-returning from `recover`
under this module's Go directive) the recovered value is nil: the body is
skipped, so zero records are emitted and the status stays 204 — not the
single record and 500 the claim asserts for every unclassified panic. -/
theorem recovery_nil_panic_counterexample :
    ZapOptions.recoveryRun ⟨"layout", false, []⟩ ⟨0, false⟩ (fun r => r.path)
      (fun (c : CtxState) => (c, some PanicVal.nilVal))
      ⟨⟨"/p", "", "GET", "ua"⟩, [], 204, false, "ip"⟩ =
      ⟨⟨⟨"/p", "", "GET", "ua"⟩, [], 204, false, "ip"⟩, [], none⟩ := rfl

/-- C10 counterexample: the nil panic value is not classified as a broken
connection, yet it is not handled by the generic branch either — the
request ends with no records and its status unchanged at 200, not 500. -/
theorem recovery_classification_nil_counterexample :
    ZapOptions.isBrokenPipe PanicVal.nilVal = false
    ∧ (ZapOptions.recoveryRun ⟨"layout", false, []⟩ ⟨1, false⟩ (fun r => r.path)
        (fun (c : CtxState) => (c, some PanicVal.nilVal))
        ⟨⟨"/q", "x=1", "GET", "ua"⟩, [], 200, false, "ip"⟩).logs = []
    ∧ (ZapOptions.recoveryRun ⟨"layout", false, []⟩ ⟨1, false⟩ (fun r => r.path)
        (fun (c : CtxState) => (c, some PanicVal.nilVal))
        ⟨⟨"/q", "x=1", "GET", "ua"⟩, [], 200, false, "ip"⟩).ctx.status ≠ 500 := by
  refine ⟨rfl, rfl, ?_⟩
  decide
